import Mathlib

/-!
Verification development for `pickyport.py`, a configuration-driven
generator of MySQL dump/load shell commands.

The Python source is shallowly embedded below:
* pure command builders (`create_dump_command`, `create_load_commands`,
  `create_db_commands`, `create_grant_commands`, `create_update_commands`)
  become Lean functions over a `Porter` record that mirrors the fields set
  in `BasePorter.__init__` / `set_variables`;
* the planning half of `BasePorter.do_portage` (building `cmd_list` and the
  `temp_files` list) becomes `do_portage_cmd_list`; the temporary-file name
  generator `NamedTemporaryFile` is modelled by an explicit name supply
  `supply : Nat -> String` (the n-th temp file created during the job gets
  the name `supply n`);
* the execution half of `do_portage` (printing, running steps, the
  stderr-substring error check, and the removal of referenced temp files
  from the pending-deletion list) becomes `exec_steps` / `do_portage_run`;
  console printing is modelled by returning the list of printed strings,
  `os.path.isfile` by an oracle `isfile : String -> Bool`, and each step's
  captured stderr by an oracle `stderr : Nat -> String` indexed by the
  step's position in `cmd_list`;
* the Python statement `for tf in self.temp_files: ...
  self.temp_files.remove(tf)` (iteration over a list being mutated) is
  modelled index-faithfully by `pyRemoveRefs`: the element read is the one
  at the iterator's current index, removal shifts later elements left, and
  the iterator index still advances;
* `MySQLPorter.__init__`'s executable lookup is modelled by
  `mysqlPorterInit`, taking the results of `which('mysqldump')` and
  `which('mysql')` as `Option String`;
* Python dictionary access `test_user['permissions']` on a possibly absent
  key is modelled as `Option String`; a missing key raises, hence the
  `Except` result of `create_grant_commands`.
-/

namespace Pickyport

/-- A connection descriptor: one `source`/`dest` entry of the YAML file. -/
structure Conn where
  host : String
  user : String
  password : String
  name : String
deriving DecidableEq

/-- One `test_users` entry.  The `permissions` key may be absent from the
YAML mapping, which is modelled by `none`. -/
structure TestUser where
  user : String
  password : String
  permissions : Option String
deriving DecidableEq

/-- A planned step: the console description and the shell command,
exactly the `(echo, cmd)` tuples built by the Python code. -/
abbrev Step := String × String

/-- The porter state after `BasePorter.__init__` + `set_variables`:
mode flags, configuration fields, and the located client executables. -/
structure Porter where
  quiet : Bool
  debug : Bool
  dry_run : Bool
  source : Conn
  dest : List Conn
  test_users : List TestUser
  create_dest_db : Bool
  fetch_data : Bool
  ignore_tables : List String
  update_scripts : List String
  mysqldump : String
  mysql : String
deriving DecidableEq

/-- One entry of the YAML `portages` list, before `set_variables` applies
the defaults from `BasePorter.__init__`.  Optional keys are `Option`;
a single-object `dest` is already normalised to a one-element list
(`set_variables` wraps non-list values into a list). -/
structure PortInfo where
  source : Conn
  dest : List Conn
  create_dest_db : Option Bool
  test_users : Option (List TestUser)
  fetch_data : Option Bool
  ignore_tables : Option (List String)
  update : Option (List String)

/-- `BasePorter.__init__` followed by `set_variables`: each optional key
overrides the default set in `__init__` (`create_dest_db = False`,
`test_users = []`, `fetch_data = True`, `ignore_tables = []`,
`update_scripts = []`). -/
def set_variables (mysqldump mysql : String) (port_info : PortInfo)
    (quiet debug dry_run : Bool) : Porter :=
  { quiet := quiet
    debug := debug
    dry_run := dry_run
    source := port_info.source
    dest := port_info.dest
    create_dest_db := match port_info.create_dest_db with
      | some b => b
      | none => false
    test_users := match port_info.test_users with
      | some l => l
      | none => []
    fetch_data := match port_info.fetch_data with
      | some b => b
      | none => true
    ignore_tables := match port_info.ignore_tables with
      | some l => l
      | none => []
    update_scripts := match port_info.update with
      | some l => l
      | none => []
    mysqldump := mysqldump
    mysql := mysql }

/-- `MySQLPorter.__init__`, lines 255-260: locate the two client
executables and raise if they are missing.  The arguments are the results
of `which('mysqldump')` and `which('mysql')`.  Translated line by line:
note that the second guard in the source tests `self.mysqldump` again
(not `self.mysql`). -/
def mysqlPorterInit (which_mysqldump which_mysql : Option String) :
    Except String (Option String × Option String) :=
  let mysqldump := which_mysqldump
  if mysqldump = none then
    Except.error "Must have mysqldump executable in PATH"
  else
    let mysql := which_mysql
    if mysqldump = none then
      Except.error "Must have mysql executable in PATH"
    else
      Except.ok (mysqldump, mysql)

/-- Python's substring test `pat in s`. -/
def strContains (s pat : String) : Prop := pat.data <:+: s.data

instance (s pat : String) : Decidable (strContains s pat) :=
  inferInstanceAs (Decidable (pat.data <:+: s.data))

/-- Bool version of `strContains`, used where the Python code branches on
the result of `in`. -/
def strContainsB (s pat : String) : Bool := decide (strContains s pat)

/-- `MySQLPorter.create_dump_command`, lines 263-300.  The
`--ignore-table` flags are accumulated over `self.ignore_tables`
unconditionally, exactly as in the source (the loop at lines 287-289 runs
whether or not `schema_only` is set). -/
def create_dump_command (p : Porter) (schema_only : Bool) (output_file : String) : Step :=
  let flag_type : String × String :=
    if schema_only then ("--no-data", "empty schema")
    else if p.ignore_tables.isEmpty then ("--complete-insert", "all tables and data")
    else ("--no-create-info --complete-insert", "selected data")
  let ignored_tables : String :=
    p.ignore_tables.foldl
      (fun acc ig => acc ++ ("--ignore-table=" ++ p.source.name ++ "." ++ ig ++ " ")) ""
  let dump_cmd :=
    p.mysqldump ++ " --lock-tables=false --routines=true " ++ flag_type.1 ++ " " ++
      ignored_tables ++ " --result-file=" ++ output_file ++ " " ++
      ("-h" ++ p.source.host ++ " -u" ++ p.source.user ++ " -p" ++ p.source.password ++
        " " ++ p.source.name)
  ("Dumping " ++ flag_type.2 ++ " from " ++ p.source.host ++ "." ++ p.source.name ++ "...",
   dump_cmd)

/-- `MySQLPorter.create_load_commands`, lines 302-322. -/
def create_load_commands (p : Porter) (input_file : String) : List Step :=
  p.dest.map (fun dest =>
    ("Loading " ++ input_file ++ " on " ++ dest.name ++ "." ++ dest.host ++ "...",
     p.mysql ++ " -h" ++ dest.host ++ " -u" ++ dest.user ++ " -p" ++ dest.password ++
       " " ++ dest.name ++ " < " ++ input_file))

/-- `MySQLPorter.create_db_commands`, lines 324-341. -/
def create_db_commands (p : Porter) : List Step :=
  p.dest.map (fun dest =>
    ("Creating " ++ dest.name ++ " on " ++ dest.host ++ "...",
     p.mysql ++ " -h" ++ dest.host ++ " -u" ++ dest.user ++ " -p" ++ dest.password ++
       " -e \x27DROP DATABASE IF EXISTS " ++ dest.name ++ "; CREATE DATABASE " ++
       dest.name ++ ";\x27"))

/-- The permission mapping of `create_grant_commands`, lines 352-357
(`write` is tested first, then `admin`, all other values fall through to
`SELECT`). -/
def perm_string (perm : String) : String :=
  if perm = "write" then "SELECT, INSERT, UPDATE, DELETE, EXECUTE"
  else if perm = "admin" then "ALL"
  else "SELECT"

/-- The grant step generated for one user/destination pair,
lines 360-374.  `perm` is the raw `test_user['permissions']` value: the
command uses `perm_string perm`, the echo uses the raw value. -/
def grant_step (p : Porter) (test_user : TestUser) (perm : String) (dest : Conn) : Step :=
  ("Granting " ++ test_user.user ++ " " ++ perm ++ " permission on " ++ dest.host ++
     "." ++ dest.name ++ "...",
   p.mysql ++ " -h" ++ dest.host ++ " -u" ++ dest.user ++ " -p" ++ dest.password ++
     " -e \"GRANT " ++ perm_string perm ++ " on " ++ dest.name ++ ".* to \x27" ++
     test_user.user ++ "\x27@\x27%\x27 IDENTIFIED BY \x27" ++ test_user.password ++
     "\x27; FLUSH PRIVILEGES;\"")

/-- The outer loop of `create_grant_commands` over `self.test_users`.
Reading `test_user['permissions']` on a user without that key raises a
`KeyError`, which aborts the whole job (nothing catches it). -/
def grant_go (p : Porter) : List TestUser → Except String (List Step)
  | [] => Except.ok []
  | test_user :: rest =>
    match test_user.permissions with
    | none => Except.error "KeyError: permissions"
    | some perm =>
      match grant_go p rest with
      | Except.error e => Except.error e
      | Except.ok others =>
        Except.ok (p.dest.map (fun dest => grant_step p test_user perm dest) ++ others)

/-- `MySQLPorter.create_grant_commands`, lines 343-375. -/
def create_grant_commands (p : Porter) : Except String (List Step) :=
  grant_go p p.test_users

/-- The loop of `create_update_commands` over `self.update_scripts`,
lines 385-397.  The first component collects the `ERROR: ... does not
exist!` lines printed for missing scripts (in script order), the second
the generated apply-steps. -/
def update_go (p : Porter) (isfile : String → Bool) :
    List String → List String × List Step
  | [] => ([], [])
  | u :: rest =>
    let r := update_go p isfile rest
    if isfile u then
      (r.1,
       p.dest.map (fun dest =>
         ("Applying " ++ u ++ " to " ++ dest.host ++ "." ++ dest.name ++ "...",
          p.mysql ++ " -h" ++ dest.host ++ " -u" ++ dest.user ++ " -p" ++
            dest.password ++ " " ++ dest.name ++ " < " ++ u)) ++ r.2)
    else
      (("ERROR: " ++ u ++ " does not exist!") :: r.1, r.2)

/-- `MySQLPorter.create_update_commands`, lines 377-398: printed
diagnostics and generated steps. -/
def create_update_commands (p : Porter) (isfile : String → Bool) :
    List String × List Step :=
  update_go p isfile p.update_scripts

/-- The data-transfer phase of `BasePorter.do_portage`, lines 179-194:
the dump/load steps and the temp files created for them, in creation
order.  `supply n` is the name handed out by the n-th
`get_temporary_file` call. -/
def transfer_part (p : Porter) (supply : Nat → String) : List Step × List String :=
  if p.fetch_data then
    if p.ignore_tables.isEmpty then
      let schema_data_file := supply 0
      (create_dump_command p false schema_data_file ::
         create_load_commands p schema_data_file,
       [schema_data_file])
    else
      let schema_file := supply 0
      let data_file := supply 1
      (create_dump_command p true schema_file ::
         (create_load_commands p schema_file ++
           (create_dump_command p false data_file ::
              create_load_commands p data_file)),
       [schema_file, data_file])
  else
    let schema_file := supply 0
    (create_dump_command p true schema_file :: create_load_commands p schema_file,
     [schema_file])

/-- The planning half of `BasePorter.do_portage`, lines 171-197: the
`cmd_list`, the `temp_files` list, and the diagnostics printed while
planning (the missing-update-script errors).  A `KeyError` raised by
`create_grant_commands` propagates. -/
def do_portage_cmd_list (p : Porter) (supply : Nat → String) (isfile : String → Bool) :
    Except String (List Step × List String × List String) :=
  let db_cmds := if p.create_dest_db then create_db_commands p else []
  match (if p.test_users.isEmpty then Except.ok [] else create_grant_commands p) with
  | Except.error e => Except.error e
  | Except.ok grant_cmds =>
    let t := transfer_part p supply
    let upd := if p.update_scripts.isEmpty then ([], [])
               else create_update_commands p isfile
    Except.ok (db_cmds ++ grant_cmds ++ t.1 ++ upd.2, t.2, upd.1)

/-- `do_portage`'s `cmd_list` with each step tagged by the phase that
produced it: 0 = database creation, 1 = grants, 2 = data transfer,
3 = update scripts.  Built from the same components, in the same order,
as `do_portage_cmd_list`. -/
def do_portage_tagged (p : Porter) (supply : Nat → String) (isfile : String → Bool) :
    Except String (List (Nat × Step)) :=
  let db_cmds := if p.create_dest_db then create_db_commands p else []
  match (if p.test_users.isEmpty then Except.ok [] else create_grant_commands p) with
  | Except.error e => Except.error e
  | Except.ok grant_cmds =>
    let t := transfer_part p supply
    let upd := if p.update_scripts.isEmpty then ([], [])
               else create_update_commands p isfile
    Except.ok (db_cmds.map (fun s => (0, s)) ++ grant_cmds.map (fun s => (1, s)) ++
      t.1.map (fun s => (2, s)) ++ upd.2.map (fun s => (3, s)))

/-- Lines 224-226 of `do_portage`:
`for tf in self.temp_files: if tf in cmd[1]: self.temp_files.remove(tf)`.
Python's list iterator keeps a position `i`; it reads the element at `i`
and advances; `remove` deletes the first occurrence of the value,
shifting later elements left (so the element after a removed one is
skipped). -/
def pyRemoveRefs (cmd : String) (l : List String) (i : Nat) : List String :=
  if h : i < l.length then
    let tf := l.get ⟨i, h⟩
    if strContainsB cmd tf then
      pyRemoveRefs cmd (l.erase tf) (i + 1)
    else
      pyRemoveRefs cmd l (i + 1)
  else
    l
termination_by l.length - i
decreasing_by
  · have htf : l.get ⟨i, h⟩ ∈ l := List.get_mem l i h
    have := List.length_erase_of_mem htf
    omega
  · omega

/-- The per-step execution loop of `do_portage`, lines 205-229, starting
at step index `i` with pending temp files `tfs`.  Returns the printed
lines, the final pending temp-file list, and the number of steps
processed.  `stderr j` is the standard-error text captured from the
command run at overall index `j`. -/
def exec_steps (p : Porter) (stderr : Nat → String) :
    List Step → Nat → List String → List String × List String × Nat
  | [], _, tfs => ([], tfs, 0)
  | cmd :: rest, i, tfs =>
    let o1 := if p.quiet then [] else [cmd.1]
    let o2 := if p.debug || p.dry_run then [cmd.2] else []
    let step_result : List String × List String :=
      if p.dry_run then ([], tfs)
      else
        let err := stderr i
        if strContainsB err "ERROR" then
          ((if p.debug then [] else [cmd.2]) ++ [err], pyRemoveRefs cmd.2 tfs 0)
        else
          ([], tfs)
    let o4 := if p.quiet then [] else ["-------------------\n"]
    let r := exec_steps p stderr rest (i + 1) step_result.2
    (o1 ++ o2 ++ step_result.1 ++ o4 ++ r.1, r.2.1, r.2.2 + 1)

/-- The observable outcome of one full `do_portage` call. -/
structure RunResult where
  cmds : List Step
  temp_files : List String
  final_temp_files : List String
  deleted : List String
  outputs : List String
  steps_run : Nat
deriving DecidableEq

/-- `BasePorter.do_portage`, lines 166-238, end to end: plan the command
list, print the banner, execute every step, then delete the temp files
still pending (unless debug mode).  `deleted` is the list of files passed
to `os.remove`; `outputs` is everything printed, in order. -/
def do_portage_run (p : Porter) (supply : Nat → String) (isfile : String → Bool)
    (stderr : Nat → String) : Except String RunResult :=
  match do_portage_cmd_list p supply isfile with
  | Except.error e => Except.error e
  | Except.ok (cmds, tfs, plan_outs) =>
    let banner := if p.quiet then []
      else if p.dry_run then
        ["===============\nStarting portage DRY RUN\n==============="]
      else
        ["===============\nStarting portage\n==============="]
    let r := exec_steps p stderr cmds 0 tfs
    let cleanup_msg := if p.debug then [] else if p.quiet then []
      else ["Removing temp files..."]
    let deleted := if p.debug then [] else r.2.1
    let done_msg := if p.quiet then [] else ["Portage complete!\n\n"]
    Except.ok
      { cmds := cmds
        temp_files := tfs
        final_temp_files := r.2.1
        deleted := deleted
        outputs := plan_outs ++ banner ++ r.1 ++ cleanup_msg ++ done_msg
        steps_run := r.2.2 }

/-! ### Helper definitions and lemmas -/

/-- The exclusion-flag block of a dump command: one
`--ignore-table=<source db>.<table> ` flag per listed table, in list
order, and nothing else. -/
def ignoredFlags (src_name : String) : List String → String
  | [] => ""
  | t :: ts => ("--ignore-table=" ++ src_name ++ "." ++ t ++ " ") ++ ignoredFlags src_name ts

lemma foldl_flags (src_name : String) (l : List String) (acc : String) :
    l.foldl (fun acc ig => acc ++ ("--ignore-table=" ++ src_name ++ "." ++ ig ++ " ")) acc
      = acc ++ ignoredFlags src_name l := by
  induction l generalizing acc with
  | nil => simp [ignoredFlags, String.append_empty]
  | cons t ts ih =>
    rw [List.foldl_cons, ih]
    simp [ignoredFlags, String.append_assoc]

lemma strContainsB_iff (s pat : String) : strContainsB s pat = true ↔ strContains s pat := by
  simp [strContainsB]

lemma strContains_refl (s : String) : strContains s s :=
  ⟨[], [], by simp⟩

lemma strContains_mono (x y s pat : String) (h : strContains s pat) :
    strContains (x ++ s ++ y) pat := by
  obtain ⟨u, v, huv⟩ := h
  refine ⟨x.data ++ u, v ++ y.data, ?_⟩
  rw [String.data_append, String.data_append, ← huv]
  simp [List.append_assoc]

lemma ignoredFlags_contains (src_name t : String) (l : List String) (h : t ∈ l) :
    strContains (ignoredFlags src_name l) ("--ignore-table=" ++ src_name ++ "." ++ t) := by
  induction l with
  | nil => cases h
  | cons u us ih =>
    rcases List.mem_cons.mp h with h1 | h2
    · subst h1
      have : ignoredFlags src_name (t :: us)
          = "" ++ ("--ignore-table=" ++ src_name ++ "." ++ t) ++
            (" " ++ ignoredFlags src_name us) := by
        simp [ignoredFlags, String.append_assoc, String.empty_append]
      rw [this]
      exact strContains_mono _ _ _ _ (strContains_refl _)
    · have := ih h2
      have heq : ignoredFlags src_name (u :: us)
          = ("--ignore-table=" ++ src_name ++ "." ++ u ++ " ") ++
            ignoredFlags src_name us ++ "" := by
        simp [ignoredFlags, String.append_empty]
      rw [heq]
      exact strContains_mono _ _ _ _ this

lemma isEmpty_false_of_ne_nil {α : Type} {l : List α} (h : l ≠ []) : l.isEmpty = false := by
  simp [List.isEmpty_iff, h]

/-- Shape of the dump command in schema-only mode: note that the
`--ignore-table` block is present even here. -/
lemma create_dump_command_schema (p : Porter) (f : String) :
    (create_dump_command p true f).2 =
      p.mysqldump ++ " --lock-tables=false --routines=true --no-data " ++
        ignoredFlags p.source.name p.ignore_tables ++ " --result-file=" ++ f ++ " " ++
        ("-h" ++ p.source.host ++ " -u" ++ p.source.user ++ " -p" ++ p.source.password ++
          " " ++ p.source.name) := by
  simp only [create_dump_command, foldl_flags]
  simp [String.empty_append, String.append_assoc]

/-- Shape of the dump command in data-only mode (non-empty
`ignore_tables`). -/
lemma create_dump_command_data (p : Porter) (f : String) (hig : p.ignore_tables ≠ []) :
    (create_dump_command p false f).2 =
      p.mysqldump ++ " --lock-tables=false --routines=true --no-create-info --complete-insert " ++
        ignoredFlags p.source.name p.ignore_tables ++ " --result-file=" ++ f ++ " " ++
        ("-h" ++ p.source.host ++ " -u" ++ p.source.user ++ " -p" ++ p.source.password ++
          " " ++ p.source.name) := by
  have hE := isEmpty_false_of_ne_nil hig
  simp only [create_dump_command, hE, foldl_flags]
  simp [String.empty_append, String.append_assoc]

/-- Shape of the dump command in combined schema-plus-data mode (empty
`ignore_tables`). -/
lemma create_dump_command_combined (p : Porter) (f : String) (hig : p.ignore_tables = []) :
    (create_dump_command p false f).2 =
      p.mysqldump ++ " --lock-tables=false --routines=true --complete-insert  --result-file=" ++
        f ++ " " ++
        ("-h" ++ p.source.host ++ " -u" ++ p.source.user ++ " -p" ++ p.source.password ++
          " " ++ p.source.name) := by
  simp only [create_dump_command, hig, List.foldl_nil]
  simp [String.append_empty, String.append_assoc]

lemma dump_data_contains_flag (p : Porter) (f : String) (hig : p.ignore_tables ≠ [])
    (t : String) (ht : t ∈ p.ignore_tables) :
    strContains (create_dump_command p false f).2
      ("--ignore-table=" ++ p.source.name ++ "." ++ t) := by
  have h2 : (create_dump_command p false f).2 =
      (p.mysqldump ++ " --lock-tables=false --routines=true --no-create-info --complete-insert ") ++
      ignoredFlags p.source.name p.ignore_tables ++
      (" --result-file=" ++ f ++ " " ++
        ("-h" ++ p.source.host ++ " -u" ++ p.source.user ++ " -p" ++ p.source.password ++
          " " ++ p.source.name)) := by
    rw [create_dump_command_data p f hig]
    simp [String.append_assoc]
  rw [h2]
  exact strContains_mono _ _ _ _ (ignoredFlags_contains _ _ _ ht)

lemma dump_data_contains_no_create_info (p : Porter) (f : String)
    (hig : p.ignore_tables ≠ []) :
    strContains (create_dump_command p false f).2 "--no-create-info" := by
  have h2 : (create_dump_command p false f).2 =
      p.mysqldump ++
      " --lock-tables=false --routines=true --no-create-info --complete-insert " ++
      (ignoredFlags p.source.name p.ignore_tables ++ " --result-file=" ++ f ++
        " " ++
        ("-h" ++ p.source.host ++ " -u" ++ p.source.user ++ " -p" ++ p.source.password ++
          " " ++ p.source.name)) := by
    rw [create_dump_command_data p f hig]
    simp [String.append_assoc]
  rw [h2]
  exact strContains_mono _ _ _ _
    (by decide : strContains
      " --lock-tables=false --routines=true --no-create-info --complete-insert "
      "--no-create-info")

lemma dump_schema_contains_no_data (p : Porter) (f : String) :
    strContains (create_dump_command p true f).2 "--no-data" := by
  have h2 : (create_dump_command p true f).2 =
      p.mysqldump ++ " --lock-tables=false --routines=true --no-data " ++
      (ignoredFlags p.source.name p.ignore_tables ++ " --result-file=" ++ f ++
        " " ++
        ("-h" ++ p.source.host ++ " -u" ++ p.source.user ++ " -p" ++ p.source.password ++
          " " ++ p.source.name)) := by
    rw [create_dump_command_schema p f]
    simp [String.append_assoc]
  rw [h2]
  exact strContains_mono _ _ _ _
    (by decide : strContains " --lock-tables=false --routines=true --no-data "
      "--no-data")

/-- The transfer phase for `fetch_data = true` and non-empty
`ignore_tables`: the two dump/load cycles of `do_portage`
lines 180-186. -/
lemma transfer_part_two_cycle (p : Porter) (supply : Nat → String)
    (hfd : p.fetch_data = true) (hig : p.ignore_tables ≠ []) :
    transfer_part p supply =
      (create_dump_command p true (supply 0) ::
        (create_load_commands p (supply 0) ++
          (create_dump_command p false (supply 1) ::
            create_load_commands p (supply 1))),
       [supply 0, supply 1]) := by
  have hE := isEmpty_false_of_ne_nil hig
  simp [transfer_part, hfd, hE]

/-- The transfer phase for `fetch_data = false`: the single schema-only
cycle of `do_portage` lines 191-194. -/
lemma transfer_part_schema_only (p : Porter) (supply : Nat → String)
    (hfd : p.fetch_data = false) :
    transfer_part p supply =
      (create_dump_command p true (supply 0) :: create_load_commands p (supply 0),
       [supply 0]) := by
  simp [transfer_part, hfd]

/-- The transfer phase for `fetch_data = true` and empty `ignore_tables`:
the single combined cycle of `do_portage` lines 188-190. -/
lemma transfer_part_combined (p : Porter) (supply : Nat → String)
    (hfd : p.fetch_data = true) (hig : p.ignore_tables = []) :
    transfer_part p supply =
      (create_dump_command p false (supply 0) :: create_load_commands p (supply 0),
       [supply 0]) := by
  simp [transfer_part, hfd, hig]

/-- Inversion of a successful `do_portage_cmd_list`: recover the four
phases of the command list. -/
lemma do_portage_cmd_list_inv (p : Porter) (supply : Nat → String)
    (isfile : String → Bool) (l : List Step) (tfs outs : List String)
    (hok : do_portage_cmd_list p supply isfile = Except.ok (l, tfs, outs)) :
    ∃ grant_cmds,
      (if p.test_users.isEmpty then Except.ok [] else create_grant_commands p)
        = Except.ok grant_cmds ∧
      l = (if p.create_dest_db then create_db_commands p else []) ++ grant_cmds ++
          (transfer_part p supply).1 ++
          (if p.update_scripts.isEmpty then ([], [])
           else create_update_commands p isfile).2 ∧
      tfs = (transfer_part p supply).2 ∧
      outs = (if p.update_scripts.isEmpty then ([], [])
              else create_update_commands p isfile).1 := by
  unfold do_portage_cmd_list at hok
  cases hgc : (if p.test_users.isEmpty then Except.ok [] else create_grant_commands p) with
  | error e => rw [hgc] at hok; simp at hok
  | ok g =>
    rw [hgc] at hok
    simp only [Except.ok.injEq, Prod.mk.injEq] at hok
    exact ⟨g, rfl, hok.1.symm, hok.2.1.symm, hok.2.2.symm⟩

/-! ### C1 -/

/-- Concrete configuration for C1: `fetch_data = false` together with a
non-empty `ignore_tables` list. -/
def c1porter : Porter :=
  { quiet := false, debug := false, dry_run := false
    source := ⟨"srchost", "root", "pw", "src"⟩
    dest := [⟨"dsthost", "duser", "dpw", "dstdb"⟩]
    test_users := [], create_dest_db := false, fetch_data := false
    ignore_tables := ["logs"], update_scripts := []
    mysqldump := "mysqldump", mysql := "mysql" }

/-- C1: the claim that `ignoredTables` never affects a schema-only dump
is violated by the code.  At the concrete input above, the schema-only
dump command rendered by `create_dump_command` (and planned by
`do_portage` when `fetch_data` is false) contains
`--ignore-table=src.logs`, so the `logs` table is excluded from the
schema copy as well; the rendered text changes when `ignoredTables`
changes. -/
theorem schema_dump_includes_ignored_tables_bug :
    (create_dump_command c1porter true "/tmp/schema.sql").2 =
      "mysqldump --lock-tables=false --routines=true --no-data --ignore-table=src.logs  --result-file=/tmp/schema.sql -hsrchost -uroot -ppw src" ∧
    strContains (create_dump_command c1porter true "/tmp/schema.sql").2
      "--ignore-table=src.logs" ∧
    (create_dump_command c1porter true "/tmp/schema.sql").2 ≠
      (create_dump_command { c1porter with ignore_tables := [] } true "/tmp/schema.sql").2 ∧
    do_portage_cmd_list c1porter (fun _ => "/tmp/schema.sql") (fun _ => true) =
      Except.ok
        ([create_dump_command c1porter true "/tmp/schema.sql",
          ("Loading /tmp/schema.sql on dstdb.dsthost...",
           "mysql -hdsthost -uduser -pdpw dstdb < /tmp/schema.sql")],
         ["/tmp/schema.sql"], []) :=
  ⟨by decide, by decide, by decide, rfl⟩

/-! ### C3 -/

/-- C3: the claim that adapter construction fails whenever either client
executable is missing is violated by the code.  `MySQLPorter.__init__`
tests `self.mysqldump` twice (lines 256 and 259), so when `mysqldump` is
found but `mysql` is not, construction succeeds with `mysql = None`
instead of raising.  A missing `mysqldump` does raise. -/
theorem missing_mysql_client_not_fatal_bug :
    mysqlPorterInit (some "/usr/bin/mysqldump") none =
      Except.ok (some "/usr/bin/mysqldump", none) ∧
    mysqlPorterInit none (some "/usr/bin/mysql") =
      Except.error "Must have mysqldump executable in PATH" :=
  ⟨rfl, rfl⟩

/-! ### C2 -/

/-- C2: with `fetch_data = true` and a non-empty `ignore_tables` list the
planner emits exactly two dump/load cycles, in the order schema-dump,
schema-loads, data-dump, data-loads; the data dump command carries
exactly one exclusion flag per listed table (the `ignoredFlags` block)
and no others, contains an exclusion for every listed table, and uses the
no-create-info insert mode; each load cycle has one load per destination
in destination order. -/
theorem two_cycle_plan_excludes_ignored_tables
    (p : Porter) (supply : Nat → String) (isfile : String → Bool)
    (l : List Step) (tfs outs : List String)
    (hok : do_portage_cmd_list p supply isfile = Except.ok (l, tfs, outs))
    (hfd : p.fetch_data = true) (hig : p.ignore_tables ≠ []) :
    (∃ grant_cmds,
      (if p.test_users.isEmpty then Except.ok [] else create_grant_commands p)
        = Except.ok grant_cmds ∧
      l = (if p.create_dest_db then create_db_commands p else []) ++ grant_cmds ++
          (create_dump_command p true (supply 0) ::
            (create_load_commands p (supply 0) ++
              (create_dump_command p false (supply 1) ::
                create_load_commands p (supply 1)))) ++
          (if p.update_scripts.isEmpty then ([], [])
           else create_update_commands p isfile).2) ∧
    (create_dump_command p false (supply 1)).2 =
      p.mysqldump ++
        " --lock-tables=false --routines=true --no-create-info --complete-insert " ++
        ignoredFlags p.source.name p.ignore_tables ++ " --result-file=" ++ supply 1 ++
        " " ++
        ("-h" ++ p.source.host ++ " -u" ++ p.source.user ++ " -p" ++ p.source.password ++
          " " ++ p.source.name) ∧
    (∀ t ∈ p.ignore_tables,
      strContains (create_dump_command p false (supply 1)).2
        ("--ignore-table=" ++ p.source.name ++ "." ++ t)) ∧
    strContains (create_dump_command p false (supply 1)).2 "--no-create-info" ∧
    create_load_commands p (supply 0) = p.dest.map (fun dest =>
      ("Loading " ++ supply 0 ++ " on " ++ dest.name ++ "." ++ dest.host ++ "...",
       p.mysql ++ " -h" ++ dest.host ++ " -u" ++ dest.user ++ " -p" ++ dest.password ++
         " " ++ dest.name ++ " < " ++ supply 0)) := by
  obtain ⟨g, hg, hl, -, -⟩ := do_portage_cmd_list_inv p supply isfile l tfs outs hok
  rw [transfer_part_two_cycle p supply hfd hig] at hl
  refine ⟨⟨g, hg, hl⟩, create_dump_command_data p (supply 1) hig,
    fun t ht => dump_data_contains_flag p (supply 1) hig t ht,
    dump_data_contains_no_create_info p (supply 1) hig, rfl⟩

/-- Concrete configuration for the C2 witness. -/
def c2porter : Porter :=
  { quiet := false, debug := false, dry_run := false
    source := ⟨"srchost", "root", "pw", "src"⟩
    dest := [⟨"dsthost", "duser", "dpw", "dstdb"⟩]
    test_users := [], create_dest_db := false, fetch_data := true
    ignore_tables := ["logs"], update_scripts := []
    mysqldump := "mysqldump", mysql := "mysql" }

def c2supply : Nat → String := fun n => if n = 0 then "/tmp/s.sql" else "/tmp/d.sql"

def c2res : List Step × List String × List String :=
  match do_portage_cmd_list c2porter c2supply (fun _ => true) with
  | Except.ok r => r
  | Except.error _ => ([], [], [])

theorem two_cycle_plan_excludes_ignored_tables_witness :
    strContains (create_dump_command c2porter false (c2supply 1)).2
      ("--ignore-table=" ++ c2porter.source.name ++ "." ++ "logs") := by
  have h := two_cycle_plan_excludes_ignored_tables c2porter c2supply (fun _ => true)
    c2res.1 c2res.2.1 c2res.2.2 rfl rfl (by decide)
  exact h.2.2.1 "logs" (by decide)

/-! ### C9 -/

/-- C9: with `fetch_data = false` the planner's data-transfer phase is
exactly one schema-only dump (its command carries the `--no-data` flag)
followed by exactly one load per destination, in destination order, and
nothing else. -/
theorem schema_only_plan
    (p : Porter) (supply : Nat → String) (isfile : String → Bool)
    (l : List Step) (tfs outs : List String)
    (hok : do_portage_cmd_list p supply isfile = Except.ok (l, tfs, outs))
    (hfd : p.fetch_data = false) :
    (∃ grant_cmds,
      (if p.test_users.isEmpty then Except.ok [] else create_grant_commands p)
        = Except.ok grant_cmds ∧
      l = (if p.create_dest_db then create_db_commands p else []) ++ grant_cmds ++
          (create_dump_command p true (supply 0) :: create_load_commands p (supply 0)) ++
          (if p.update_scripts.isEmpty then ([], [])
           else create_update_commands p isfile).2) ∧
    strContains (create_dump_command p true (supply 0)).2 "--no-data" ∧
    create_load_commands p (supply 0) = p.dest.map (fun dest =>
      ("Loading " ++ supply 0 ++ " on " ++ dest.name ++ "." ++ dest.host ++ "...",
       p.mysql ++ " -h" ++ dest.host ++ " -u" ++ dest.user ++ " -p" ++ dest.password ++
         " " ++ dest.name ++ " < " ++ supply 0)) := by
  obtain ⟨g, hg, hl, -, -⟩ := do_portage_cmd_list_inv p supply isfile l tfs outs hok
  rw [transfer_part_schema_only p supply hfd] at hl
  exact ⟨⟨g, hg, hl⟩, dump_schema_contains_no_data p (supply 0), rfl⟩

/-- Concrete configuration for the C9 witness: two destinations. -/
def c9porter : Porter :=
  { quiet := false, debug := false, dry_run := false
    source := ⟨"srchost", "root", "pw", "src"⟩
    dest := [⟨"h1", "u1", "p1", "db1"⟩, ⟨"h2", "u2", "p2", "db2"⟩]
    test_users := [], create_dest_db := false, fetch_data := false
    ignore_tables := [], update_scripts := []
    mysqldump := "mysqldump", mysql := "mysql" }

def c9res : List Step × List String × List String :=
  match do_portage_cmd_list c9porter (fun _ => "/tmp/t.sql") (fun _ => true) with
  | Except.ok r => r
  | Except.error _ => ([], [], [])

theorem schema_only_plan_witness :
    strContains (create_dump_command c9porter true "/tmp/t.sql").2 "--no-data" := by
  have h := schema_only_plan c9porter (fun _ => "/tmp/t.sql") (fun _ => true)
    c9res.1 c9res.2.1 c9res.2.2 rfl rfl
  exact h.2.1

/-! ### C10 -/

/-- C10: when the `fetch_data` key is absent from the configuration the
porter behaves as if it were true (the default set in
`BasePorter.__init__`); with `ignore_tables` also absent the transfer
phase is a single combined schema-plus-data dump/load cycle whose dump
command uses `--complete-insert` without `--no-data` or
`--no-create-info`. -/
theorem fetch_data_defaults_true
    (mysqldump mysql : String) (pi : PortInfo) (quiet debug dry_run : Bool)
    (supply : Nat → String) (p : Porter)
    (hp : p = set_variables mysqldump mysql pi quiet debug dry_run)
    (hfd : pi.fetch_data = none) (hig : pi.ignore_tables = none) :
    p.fetch_data = true ∧
    transfer_part p supply =
      (create_dump_command p false (supply 0) :: create_load_commands p (supply 0),
       [supply 0]) ∧
    (create_dump_command p false (supply 0)).1 =
      "Dumping all tables and data from " ++ pi.source.host ++ "." ++ pi.source.name ++
        "..." ∧
    (create_dump_command p false (supply 0)).2 =
      mysqldump ++
        " --lock-tables=false --routines=true --complete-insert  --result-file=" ++
        supply 0 ++ " " ++
        ("-h" ++ pi.source.host ++ " -u" ++ pi.source.user ++ " -p" ++
          pi.source.password ++ " " ++ pi.source.name) := by
  subst hp
  have h1 : (set_variables mysqldump mysql pi quiet debug dry_run).fetch_data = true := by
    simp [set_variables, hfd]
  have h2 : (set_variables mysqldump mysql pi quiet debug dry_run).ignore_tables = [] := by
    simp [set_variables, hig]
  refine ⟨h1, transfer_part_combined _ _ h1 h2, ?_, ?_⟩
  · simp [create_dump_command, set_variables, hig]
  · rw [create_dump_command_combined _ _ h2]
    simp [set_variables]

/-- Concrete configuration for the C10 witness: no `fetch_data` and no
`ignore_tables` key. -/
def c10info : PortInfo :=
  { source := ⟨"srchost", "root", "pw", "src"⟩
    dest := [⟨"dsthost", "duser", "dpw", "dstdb"⟩]
    create_dest_db := none, test_users := none, fetch_data := none
    ignore_tables := none, update := none }

theorem fetch_data_defaults_true_witness :
    (set_variables "mysqldump" "mysql" c10info false false false).fetch_data = true := by
  have h := fetch_data_defaults_true "mysqldump" "mysql" c10info false false false
    (fun _ => "/tmp/t.sql") (set_variables "mysqldump" "mysql" c10info false false false)
    rfl rfl rfl
  exact h.1

/-! ### C5 -/

lemma pairwise_le_replicate (n k : Nat) : (List.replicate n k).Pairwise (· ≤ ·) := by
  induction n with
  | zero => simp
  | succ m ih =>
    rw [List.replicate_succ]
    exact List.Pairwise.cons (fun b hb => by rw [List.eq_of_mem_replicate hb]) ih

lemma mem_map_tag {k : Nat} {l : List Step} {x : Nat}
    (hx : x ∈ l.map (Prod.fst ∘ fun s => (k, s))) : x = k := by
  rcases List.mem_map.mp hx with ⟨y, -, he⟩
  exact he.symm

lemma sorted_map_fst_tagged (a b c d : List Step) :
    List.Sorted (· ≤ ·)
      ((a.map (fun s => ((0 : Nat), s)) ++ b.map (fun s => ((1 : Nat), s)) ++
        c.map (fun s => ((2 : Nat), s)) ++ d.map (fun s => ((3 : Nat), s))).map
        Prod.fst) := by
  unfold List.Sorted
  simp only [List.map_append, List.map_map]
  have hrep : ∀ (k : Nat) (l : List Step),
      (l.map (Prod.fst ∘ fun s => (k, s))).Pairwise (· ≤ ·) := by
    intro k l
    have h : l.map (Prod.fst ∘ fun s => (k, s)) = l.map (fun _ => k) := rfl
    rw [h, List.map_const']
    exact pairwise_le_replicate _ k
  rw [List.pairwise_append]
  refine ⟨?_, hrep 3 d, ?_⟩
  · rw [List.pairwise_append]
    refine ⟨?_, hrep 2 c, ?_⟩
    · rw [List.pairwise_append]
      refine ⟨hrep 0 a, hrep 1 b, ?_⟩
      intro x hx y hy
      rw [mem_map_tag hx, mem_map_tag hy]
      omega
    · intro x hx y hy
      rw [mem_map_tag hy]
      rcases List.mem_append.mp hx with h | h
      · rw [mem_map_tag h]; omega
      · rw [mem_map_tag h]; omega
  · intro x hx y hy
    rw [mem_map_tag hy]
    rcases List.mem_append.mp hx with h | h
    · rcases List.mem_append.mp h with h2 | h2
      · rw [mem_map_tag h2]; omega
      · rw [mem_map_tag h2]; omega
    · rw [mem_map_tag h]; omega

/-- C5: the plan is ordered in phases.  Tagging each step of the plan
with the phase that produced it (0 = database creation, 1 = grants,
2 = data transfer, 3 = updates), the untagged plan is exactly
`do_portage`'s command list and the phase tags appear in monotonically
non-decreasing order, for every configuration. -/
theorem plan_phase_order
    (p : Porter) (supply : Nat → String) (isfile : String → Bool)
    (tl : List (Nat × Step))
    (hok : do_portage_tagged p supply isfile = Except.ok tl) :
    (∃ tfs outs, do_portage_cmd_list p supply isfile
        = Except.ok (tl.map Prod.snd, tfs, outs)) ∧
    List.Sorted (· ≤ ·) (tl.map Prod.fst) := by
  unfold do_portage_tagged at hok
  cases hgc : (if p.test_users.isEmpty then Except.ok [] else create_grant_commands p) with
  | error e => rw [hgc] at hok; simp at hok
  | ok g =>
    rw [hgc] at hok
    simp only [Except.ok.injEq] at hok
    subst hok
    constructor
    · refine ⟨(transfer_part p supply).2,
        (if p.update_scripts.isEmpty then ([], [])
         else create_update_commands p isfile).1, ?_⟩
      unfold do_portage_cmd_list
      rw [hgc]
      simp [List.map_append, List.map_map, Function.comp, List.map_id]
    · exact sorted_map_fst_tagged _ _ _ _

/-- Concrete configuration for the C5 witness: every phase present. -/
def c5porter : Porter :=
  { quiet := false, debug := false, dry_run := false
    source := ⟨"srchost", "root", "pw", "src"⟩
    dest := [⟨"dsthost", "duser", "dpw", "dstdb"⟩]
    test_users := [⟨"tu", "tpw", some "write"⟩]
    create_dest_db := true, fetch_data := true
    ignore_tables := ["logs"], update_scripts := ["u.sql"]
    mysqldump := "mysqldump", mysql := "mysql" }

def c5tagged : List (Nat × Step) :=
  match do_portage_tagged c5porter (fun n => "/tmp/t" ++ toString n ++ ".sql")
      (fun _ => true) with
  | Except.ok r => r
  | Except.error _ => []

theorem plan_phase_order_witness :
    List.Sorted (· ≤ ·) (c5tagged.map Prod.fst) := by
  have h := plan_phase_order c5porter (fun n => "/tmp/t" ++ toString n ++ ".sql")
    (fun _ => true) c5tagged rfl
  exact h.2

/-! ### C6 -/

/-- The permission mapping exactly as the specification words it:
`admin` maps to all privileges, `write` to the five-verb set, and any
other value to read-only.  Stated for comparison with the source-derived
`perm_string`. -/
def specPermissionMap (perm : String) : String :=
  if perm = "admin" then "ALL"
  else if perm = "write" then "SELECT, INSERT, UPDATE, DELETE, EXECUTE"
  else "SELECT"

/-- Concrete configuration for the C6 counterexample: one test user whose
`permissions` key is absent. -/
def c6porter : Porter :=
  { quiet := false, debug := false, dry_run := false
    source := ⟨"srchost", "root", "pw", "src"⟩
    dest := [⟨"dsthost", "duser", "dpw", "dstdb"⟩]
    test_users := [⟨"u1", "pw1", none⟩]
    create_dest_db := false, fetch_data := true
    ignore_tables := [], update_scripts := []
    mysqldump := "mysqldump", mysql := "mysql" }

/-- C6 counterexample: for a test user with an unset permission level the
code does not render a read-only grant — reading the missing
`permissions` key raises a `KeyError`, so no grant command exists and the
whole planning step aborts. -/
theorem permission_unset_raises :
    create_grant_commands c6porter = Except.error "KeyError: permissions" ∧
    do_portage_cmd_list c6porter (fun _ => "/tmp/t.sql") (fun _ => true) =
      Except.error "KeyError: permissions" :=
  ⟨rfl, rfl⟩

/-- C6 (amended): for present permission values the rendered grant
command maps `admin` to all privileges, `write` to the five-verb set and
any other value to read-only (the source mapping `perm_string` agrees
with the spec mapping everywhere); but an absent permission level is not
defaulted to read-only — `create_grant_commands` raises a `KeyError`
instead. -/
theorem permission_mapping_amended (p : Porter) :
    (∀ perm, perm_string perm = specPermissionMap perm) ∧
    (∀ u perm, p.test_users = [u] → u.permissions = some perm →
      create_grant_commands p =
        Except.ok (p.dest.map (fun dest => grant_step p u perm dest))) ∧
    (∀ u rest, p.test_users = u :: rest → u.permissions = none →
      create_grant_commands p = Except.error "KeyError: permissions") := by
  refine ⟨?_, ?_, ?_⟩
  · intro perm
    by_cases hw : perm = "write"
    · subst hw; rfl
    · by_cases ha : perm = "admin"
      · subst ha; rfl
      · simp [perm_string, specPermissionMap, hw, ha]
  · intro u perm hu hp
    unfold create_grant_commands
    rw [hu]
    simp [grant_go, hp]
  · intro u rest hu hp
    unfold create_grant_commands
    rw [hu]
    simp [grant_go, hp]

/-- Concrete configuration for the C6 witness: one admin-level user. -/
def c6wporter : Porter :=
  { quiet := false, debug := false, dry_run := false
    source := ⟨"srchost", "root", "pw", "src"⟩
    dest := [⟨"dsthost", "duser", "dpw", "dstdb"⟩]
    test_users := [⟨"u1", "pw1", some "admin"⟩]
    create_dest_db := false, fetch_data := true
    ignore_tables := [], update_scripts := []
    mysqldump := "mysqldump", mysql := "mysql" }

theorem permission_mapping_witness :
    perm_string "admin" = specPermissionMap "admin" ∧
    create_grant_commands c6wporter =
      Except.ok (c6wporter.dest.map (fun dest =>
        grant_step c6wporter ⟨"u1", "pw1", some "admin"⟩ "admin" dest)) := by
  have h := permission_mapping_amended c6wporter
  exact ⟨h.1 "admin", h.2.1 ⟨"u1", "pw1", some "admin"⟩ "admin" rfl rfl⟩

/-! ### C8 -/

def exceptOk {ε α : Type} : Except ε α → Bool
  | Except.ok _ => true
  | Except.error _ => false

lemma update_go_spec (p : Porter) (isfile : String → Bool) (l : List String) :
    (update_go p isfile l).2 =
      (l.filter isfile).flatMap (fun u => p.dest.map (fun dest =>
        ("Applying " ++ u ++ " to " ++ dest.host ++ "." ++ dest.name ++ "...",
         p.mysql ++ " -h" ++ dest.host ++ " -u" ++ dest.user ++ " -p" ++ dest.password ++
           " " ++ dest.name ++ " < " ++ u))) ∧
    (update_go p isfile l).1 =
      (l.filter (fun u => !(isfile u))).map
        (fun u => "ERROR: " ++ u ++ " does not exist!") := by
  induction l with
  | nil => simp [update_go]
  | cons u rest ih =>
    by_cases hf : isfile u
    · simp [update_go, hf, List.filter_cons, ih.1, ih.2]
    · simp only [Bool.not_eq_true] at hf
      simp [update_go, hf, List.filter_cons, ih.1, ih.2]

/-- C8: every update script that does not exist is skipped with one
`ERROR: ... does not exist!` diagnostic, in script order; the apply-steps
generated are exactly one per (existing script × destination) pair, in
script order then destination order; and missing scripts never make the
planner abort (planning succeeds iff the grant phase does, regardless of
the file-existence oracle). -/
theorem missing_update_script_skipped
    (p : Porter) (isfile : String → Bool) (supply : Nat → String) :
    (create_update_commands p isfile).2 =
      (p.update_scripts.filter isfile).flatMap (fun u => p.dest.map (fun dest =>
        ("Applying " ++ u ++ " to " ++ dest.host ++ "." ++ dest.name ++ "...",
         p.mysql ++ " -h" ++ dest.host ++ " -u" ++ dest.user ++ " -p" ++ dest.password ++
           " " ++ dest.name ++ " < " ++ u))) ∧
    (create_update_commands p isfile).1 =
      (p.update_scripts.filter (fun u => !(isfile u))).map
        (fun u => "ERROR: " ++ u ++ " does not exist!") ∧
    exceptOk (do_portage_cmd_list p supply isfile) =
      exceptOk (if p.test_users.isEmpty then Except.ok [] else create_grant_commands p) := by
  refine ⟨(update_go_spec p isfile p.update_scripts).1,
    (update_go_spec p isfile p.update_scripts).2, ?_⟩
  unfold do_portage_cmd_list
  cases hgc : (if p.test_users.isEmpty then Except.ok [] else create_grant_commands p) with
  | error e => simp [exceptOk]
  | ok g => simp [exceptOk]

/-! ### Executor lemmas (for C4 and C7) -/

lemma pyRemoveRefs_sublist (cmd : String) (l : List String) (i : Nat) :
    (pyRemoveRefs cmd l i).Sublist l := by
  have key : ∀ (n : Nat) (l : List String) (i : Nat), l.length - i ≤ n →
      (pyRemoveRefs cmd l i).Sublist l := by
    intro n
    induction n with
    | zero =>
      intro l i h
      rw [pyRemoveRefs]
      have hi : ¬ i < l.length := by omega
      simp [hi]
    | succ m ih =>
      intro l i h
      rw [pyRemoveRefs]
      by_cases hi : i < l.length
      · simp only [hi, dif_pos]
        by_cases hc : strContainsB cmd (l.get ⟨i, hi⟩)
        · rw [if_pos hc]
          have hlen := List.length_erase_of_mem (List.get_mem l i hi)
          exact (ih _ _ (by omega)).trans (List.erase_sublist _ _)
        · rw [if_neg hc]
          exact ih l (i + 1) (by omega)
      · simp [hi]
  exact key l.length l i (by omega)

lemma pyRemoveRefs_mem (cmd : String) (l : List String) (i : Nat) (tf : String)
    (htf : tf ∈ l) (hnc : ¬ strContains cmd tf) : tf ∈ pyRemoveRefs cmd l i := by
  have key : ∀ (n : Nat) (l : List String) (i : Nat), l.length - i ≤ n → tf ∈ l →
      tf ∈ pyRemoveRefs cmd l i := by
    intro n
    induction n with
    | zero =>
      intro l i h htf
      rw [pyRemoveRefs]
      have hi : ¬ i < l.length := by omega
      simp [hi, htf]
    | succ m ih =>
      intro l i h htf
      rw [pyRemoveRefs]
      by_cases hi : i < l.length
      · simp only [hi, dif_pos]
        by_cases hc : strContainsB cmd (l.get ⟨i, hi⟩)
        · rw [if_pos hc]
          have hne : tf ≠ l.get ⟨i, hi⟩ := by
            intro he
            rw [← he, strContainsB_iff] at hc
            exact hnc hc
          have hlen := List.length_erase_of_mem (List.get_mem l i hi)
          exact ih _ _ (by omega) ((List.mem_erase_of_ne hne).mpr htf)
        · rw [if_neg hc]
          exact ih l (i + 1) (by omega) htf
      · simp [hi, htf]
  exact key l.length l i (by omega) htf

lemma two_le_length_of_mem {α : Type} {a b : α} {L : List α}
    (ha : a ∈ L) (hb : b ∈ L) (hne : a ≠ b) : 2 ≤ L.length := by
  cases L with
  | nil => cases ha
  | cons x xs =>
    rcases List.mem_cons.mp ha with h1 | h1
    · rcases List.mem_cons.mp hb with h2 | h2
      · exact absurd (h1.trans h2.symm) hne
      · have hlen := List.length_pos_of_mem h2
        simp only [List.length_cons]
        omega
    · have hlen := List.length_pos_of_mem h1
      simp only [List.length_cons]
      omega

lemma two_le_countP {p : String → Bool} {a b : String} {L : List String}
    (ha : a ∈ L) (hb : b ∈ L) (hne : a ≠ b) (hpa : p a = true) (hpb : p b = true) :
    2 ≤ L.countP p := by
  rw [List.countP_eq_length_filter]
  exact two_le_length_of_mem (List.mem_filter.mpr ⟨ha, hpa⟩)
    (List.mem_filter.mpr ⟨hb, hpb⟩) hne

/-- When at most one pending temp file matches the command and the list
has no duplicates, the Python remove-while-iterating loop does remove
every matching element. -/
lemma pyRemoveRefs_not_mem (cmd : String) (l : List String) (i : Nat) (tf : String)
    (hnd : l.Nodup) (hcnt : l.countP (fun s => strContainsB cmd s) ≤ 1)
    (htfd : tf ∈ l.drop i) (hc : strContains cmd tf) :
    tf ∉ pyRemoveRefs cmd l i := by
  have key : ∀ (n : Nat) (l : List String) (i : Nat), l.length - i ≤ n → l.Nodup →
      l.countP (fun s => strContainsB cmd s) ≤ 1 → tf ∈ l.drop i →
      tf ∉ pyRemoveRefs cmd l i := by
    intro n
    induction n with
    | zero =>
      intro l i h _ _ htfd
      have hi : l.length ≤ i := by omega
      rw [List.drop_eq_nil_of_le hi] at htfd
      cases htfd
    | succ m ih =>
      intro l i h hnd hcnt htfd
      rw [pyRemoveRefs]
      by_cases hi : i < l.length
      · simp only [hi, dif_pos]
        have hvget : l.get ⟨i, hi⟩ = l[i] := rfl
        have hdrop : l.drop i = l.get ⟨i, hi⟩ :: l.drop (i + 1) := by
          rw [List.drop_eq_getElem_cons hi, hvget]
        by_cases heq : tf = l.get ⟨i, hi⟩
        · have hcB : strContainsB cmd (l.get ⟨i, hi⟩) = true := by
            rw [strContainsB_iff, ← heq]; exact hc
          rw [if_pos hcB, ← heq]
          intro hmem
          exact List.Nodup.not_mem_erase hnd
            ((pyRemoveRefs_sublist cmd (l.erase tf) (i + 1)).subset hmem)
        · have htfd1 : tf ∈ l.drop (i + 1) := by
            rw [hdrop] at htfd
            exact (List.mem_cons.mp htfd).resolve_left heq
          by_cases hcB : strContainsB cmd (l.get ⟨i, hi⟩)
          · exfalso
            have htfmem : tf ∈ l := List.mem_of_mem_drop htfd1
            have hvmem : l.get ⟨i, hi⟩ ∈ l := List.get_mem l i hi
            have h2 : 2 ≤ List.countP (fun s => strContainsB cmd s) l :=
              two_le_countP htfmem hvmem heq
                (by rw [strContainsB_iff]; exact hc) hcB
            omega
          · rw [if_neg hcB]
            exact ih l (i + 1) (by omega) hnd hcnt htfd1
      · have hle : l.length ≤ i := by omega
        rw [List.drop_eq_nil_of_le hle] at htfd
        cases htfd
  exact key l.length l i (by omega) hnd hcnt htfd

lemma exec_step_state_sublist (p : Porter) (stderr : Nat → String) (c : Step)
    (i : Nat) (tfs : List String) :
    (if p.dry_run then (([] : List String), tfs)
     else
       if strContainsB (stderr i) "ERROR" then
         ((if p.debug then [] else [c.2]) ++ [stderr i], pyRemoveRefs c.2 tfs 0)
       else ([], tfs)).2.Sublist tfs := by
  by_cases hd : p.dry_run
  · simp [hd]
  · by_cases he : strContainsB (stderr i) "ERROR"
    · simp [hd, he, pyRemoveRefs_sublist]
    · simp [hd, he]

lemma exec_steps_final_sublist (p : Porter) (stderr : Nat → String) :
    ∀ (cmds : List Step) (i : Nat) (tfs : List String),
      (exec_steps p stderr cmds i tfs).2.1.Sublist tfs := by
  intro cmds
  induction cmds with
  | nil => intro i tfs; simp [exec_steps]
  | cons c rest ih =>
    intro i tfs
    simp only [exec_steps]
    exact (ih (i + 1) _).trans (exec_step_state_sublist p stderr c i tfs)

lemma exec_steps_len (p : Porter) (stderr : Nat → String) :
    ∀ (cmds : List Step) (i : Nat) (tfs : List String),
      (exec_steps p stderr cmds i tfs).2.2 = cmds.length := by
  intro cmds
  induction cmds with
  | nil => intro i tfs; simp [exec_steps]
  | cons c rest ih =>
    intro i tfs
    simp only [exec_steps, List.length_cons]
    rw [ih]

lemma exec_steps_mem (p : Porter) (stderr : Nat → String) :
    ∀ (cmds : List Step) (i : Nat) (tfs : List String) (tf : String),
      tf ∈ tfs →
      (∀ (j : Nat) (hj : j < cmds.length), strContains (stderr (i + j)) "ERROR" →
        ¬ strContains (cmds.get ⟨j, hj⟩).2 tf) →
      tf ∈ (exec_steps p stderr cmds i tfs).2.1 := by
  intro cmds
  induction cmds with
  | nil => intro i tfs tf htf _; simpa [exec_steps] using htf
  | cons c rest ih =>
    intro i tfs tf htf hno
    simp only [exec_steps]
    apply ih (i + 1)
    · by_cases hd : p.dry_run
      · simpa [hd] using htf
      · by_cases he : strContainsB (stderr i) "ERROR"
        · have hnc : ¬ strContains c.2 tf := by
            have h0 := hno 0 (by simp) (by simpa using (strContainsB_iff _ _).mp he)
            simpa using h0
          simp only [hd, if_false, he, if_true, Bool.false_eq_true]
          exact pyRemoveRefs_mem c.2 tfs 0 tf htf hnc
        · simpa [hd, he] using htf
    · intro j hj herr
      have hidx : i + 1 + j = i + (j + 1) := by omega
      rw [hidx] at herr
      have := hno (j + 1) (by simpa using Nat.succ_lt_succ hj) herr
      simpa using this

lemma exec_steps_not_mem (p : Porter) (stderr : Nat → String) (hdr : p.dry_run = false) :
    ∀ (cmds : List Step) (i : Nat) (tfs : List String),
      tfs.Nodup →
      (∀ c ∈ cmds, tfs.countP (fun s => strContainsB c.2 s) ≤ 1) →
      ∀ (j : Nat) (hj : j < cmds.length) (tf : String),
        tf ∈ tfs → strContains (stderr (i + j)) "ERROR" →
        strContains (cmds.get ⟨j, hj⟩).2 tf →
        tf ∉ (exec_steps p stderr cmds i tfs).2.1 := by
  intro cmds
  induction cmds with
  | nil =>
    intro i tfs _ _ j hj
    exact absurd hj (by simp)
  | cons c rest ih =>
    intro i tfs hnd hcnt j hj tf htf herr hcmd
    simp only [exec_steps]
    cases j with
    | zero =>
      have herr0 : strContainsB (stderr i) "ERROR" = true := by
        rw [strContainsB_iff]
        simpa using herr
      have hc0 : strContains c.2 tf := by simpa using hcmd
      have hnot : tf ∉ pyRemoveRefs c.2 tfs 0 :=
        pyRemoveRefs_not_mem c.2 tfs 0 tf hnd (hcnt c (List.mem_cons_self c rest))
          (by simpa using htf) hc0
      simp only [hdr, Bool.false_eq_true, if_false, herr0, if_true]
      intro hmem
      exact hnot ((exec_steps_final_sublist p stderr rest (i + 1) _).subset hmem)
    | succ k =>
      have hidx : i + (k + 1) = i + 1 + k := by omega
      rw [hidx] at herr
      have hcmd2 : strContains (rest.get ⟨k, by simpa using Nat.lt_of_succ_lt_succ hj⟩).2 tf := by
        simpa using hcmd
      by_cases he : strContainsB (stderr i) "ERROR"
      · simp only [hdr, Bool.false_eq_true, if_false, he, if_true]
        by_cases htf2 : tf ∈ pyRemoveRefs c.2 tfs 0
        · exact ih (i + 1) (pyRemoveRefs c.2 tfs 0)
            ((pyRemoveRefs_sublist c.2 tfs 0).nodup hnd)
            (fun c' hc' => le_trans
              ((pyRemoveRefs_sublist c.2 tfs 0).countP_le _)
              (hcnt c' (List.mem_cons_of_mem c hc')))
            k (by simpa using Nat.lt_of_succ_lt_succ hj) tf htf2 herr hcmd2
        · intro hmem
          exact htf2 ((exec_steps_final_sublist p stderr rest (i + 1) _).subset hmem)
      · simp only [hdr, Bool.false_eq_true, if_false, he]
        exact ih (i + 1) tfs hnd
          (fun c' hc' => hcnt c' (List.mem_cons_of_mem c hc'))
          k (by simpa using Nat.lt_of_succ_lt_succ hj) tf htf herr hcmd2

/-! ### C4 -/

/-- C4: in a live (non-dry-run, non-debug) run, whenever a step's
captured stderr contains `ERROR`, every pending temp file whose name
occurs in that step's command text is removed from the pending-deletion
list and is not deleted at end of run, while every temp file not
referenced by any erroring step's command is deleted; execution always
continues through all planned steps.  The two side conditions state what
the real `NamedTemporaryFile` names guarantee: the generated names are
distinct, and no command's text contains more than one of them (each
command names at most the one file it reads or writes). -/
theorem error_step_temp_file_preserved
    (p : Porter) (supply : Nat → String) (isfile : String → Bool)
    (stderr : Nat → String) (r : RunResult)
    (hok : do_portage_run p supply isfile stderr = Except.ok r)
    (hnd : r.temp_files.Nodup)
    (hcnt : ∀ c ∈ r.cmds, r.temp_files.countP (fun tf => strContainsB c.2 tf) ≤ 1)
    (hdr : p.dry_run = false) (hdbg : p.debug = false) :
    (∀ (i : Nat) (hi : i < r.cmds.length), strContains (stderr i) "ERROR" →
      ∀ tf ∈ r.temp_files, strContains (r.cmds.get ⟨i, hi⟩).2 tf →
        tf ∉ r.deleted) ∧
    (∀ tf ∈ r.temp_files,
      (∀ (i : Nat) (hi : i < r.cmds.length), strContains (stderr i) "ERROR" →
        ¬ strContains (r.cmds.get ⟨i, hi⟩).2 tf) →
      tf ∈ r.deleted) ∧
    r.steps_run = r.cmds.length := by
  unfold do_portage_run at hok
  cases hpc : do_portage_cmd_list p supply isfile with
  | error e => rw [hpc] at hok; simp at hok
  | ok trip =>
    obtain ⟨cmds, tfs, pouts⟩ := trip
    rw [hpc] at hok
    simp only [Except.ok.injEq] at hok
    subst hok
    simp only [hdbg, Bool.false_eq_true, if_false]
    refine ⟨?_, ?_, exec_steps_len p stderr cmds 0 tfs⟩
    · intro i hi herr tf htf hcmd
      have h0 : (0 : Nat) + i = i := Nat.zero_add i
      exact exec_steps_not_mem p stderr hdr cmds 0 tfs hnd hcnt i hi tf htf
        (by rw [h0]; exact herr) hcmd
    · intro tf htf hno
      exact exec_steps_mem p stderr cmds 0 tfs tf htf
        (fun j hj herr => hno j hj (by rw [Nat.zero_add] at herr; exact herr))

/-- Concrete configuration for the C4 witness: two temp files (schema
and data), with the data dump step (index 2) failing. -/
def c4porter : Porter :=
  { quiet := false, debug := false, dry_run := false
    source := ⟨"srchost", "root", "pw", "src"⟩
    dest := [⟨"dsthost", "duser", "dpw", "dstdb"⟩]
    test_users := [], create_dest_db := false, fetch_data := true
    ignore_tables := ["logs"], update_scripts := []
    mysqldump := "mysqldump", mysql := "mysql" }

def c4supply : Nat → String := fun n => if n = 0 then "/tmp/a.sql" else "/tmp/b.sql"

def c4stderr : Nat → String := fun i => if i = 2 then "ERROR: duplicate entry" else ""

def c4run : RunResult :=
  match do_portage_run c4porter c4supply (fun _ => true) c4stderr with
  | Except.ok r => r
  | Except.error _ => ⟨[], [], [], [], [], 0⟩

set_option maxRecDepth 8192 in
theorem error_step_temp_file_preserved_witness :
    "/tmp/b.sql" ∉ c4run.deleted ∧ "/tmp/a.sql" ∈ c4run.deleted ∧
    c4run.steps_run = c4run.cmds.length := by
  have h := error_step_temp_file_preserved c4porter c4supply (fun _ => true) c4stderr
    c4run rfl (by decide) (by decide) rfl rfl
  exact ⟨h.1 2 (by decide) (by decide) "/tmp/b.sql" (by decide) (by decide),
    h.2.1 "/tmp/a.sql" (by decide) (by decide),
    h.2.2⟩

/-! ### C7 -/

/-- The lines printed by the executor for failed steps: for each step
whose stderr contains `ERROR`, the command text followed by the stderr
text (the non-debug case of `do_portage` lines 217-221). -/
def error_reports (stderr : Nat → String) : List Step → Nat → List String
  | [], _ => []
  | cmd :: rest, i =>
    (if strContainsB (stderr i) "ERROR" then [cmd.2, stderr i] else []) ++
      error_reports stderr rest (i + 1)

lemma exec_steps_outputs_quiet (p : Porter) (stderr : Nat → String)
    (hq : p.quiet = true) (hd : p.debug = false) (hdr : p.dry_run = false) :
    ∀ (cmds : List Step) (i : Nat) (tfs : List String),
      (exec_steps p stderr cmds i tfs).1 = error_reports stderr cmds i := by
  intro cmds
  induction cmds with
  | nil => intro i tfs; simp [exec_steps, error_reports]
  | cons c rest ih =>
    intro i tfs
    simp only [exec_steps, error_reports, hq, hd, hdr, Bool.false_eq_true, if_false,
      if_true, Bool.or_self]
    by_cases he : strContainsB (stderr i) "ERROR"
    · simp [he, ih]
    · simp [he, ih]

/-- Concrete configuration for the C7 counterexample: quiet mode, live
run, one erroring step. -/
def c7porter : Porter :=
  { quiet := true, debug := false, dry_run := false
    source := ⟨"srchost", "root", "pw", "src"⟩
    dest := [⟨"dsthost", "duser", "dpw", "dstdb"⟩]
    test_users := [], create_dest_db := false, fetch_data := false
    ignore_tables := [], update_scripts := []
    mysqldump := "mysqldump", mysql := "mysql" }

def c7stderr : Nat → String := fun i => if i = 0 then "ERROR: boom" else ""

def c7run : RunResult :=
  match do_portage_run c7porter (fun _ => "/tmp/q.sql") (fun _ => true) c7stderr with
  | Except.ok r => r
  | Except.error _ => ⟨[], [], [], [], [], 0⟩

/-- C7 counterexample: with quiet mode active the program still prints.
In this run it prints the failing command and its stderr text, so quiet
mode does not suppress all console output. -/
theorem quiet_mode_output_counterexample :
    c7porter.quiet = true ∧
    c7run.outputs = [(create_dump_command c7porter true "/tmp/q.sql").2, "ERROR: boom"] ∧
    c7run.outputs ≠ [] :=
  ⟨rfl, by decide, by decide⟩

/-- C7 (amended): quiet mode suppresses the banners, step descriptions,
step separators, cleanup notice and completion message, but not the
error reports: in a quiet live (non-debug, non-dry-run) run the console
output is exactly the planning diagnostics (missing-update-script
errors) followed by, for each erroring step, its command text and stderr
text. -/
theorem quiet_mode_error_output
    (p : Porter) (supply : Nat → String) (isfile : String → Bool)
    (stderr : Nat → String) (cmds : List Step) (tfs pouts : List String)
    (r : RunResult)
    (hplan : do_portage_cmd_list p supply isfile = Except.ok (cmds, tfs, pouts))
    (hok : do_portage_run p supply isfile stderr = Except.ok r)
    (hq : p.quiet = true) (hd : p.debug = false) (hdr : p.dry_run = false) :
    r.outputs = pouts ++ error_reports stderr cmds 0 := by
  unfold do_portage_run at hok
  rw [hplan] at hok
  simp only [Except.ok.injEq] at hok
  subst hok
  simp [hq, hd, hdr, exec_steps_outputs_quiet p stderr hq hd hdr]

def c7plan : List Step × List String × List String :=
  match do_portage_cmd_list c7porter (fun _ => "/tmp/q.sql") (fun _ => true) with
  | Except.ok r => r
  | Except.error _ => ([], [], [])

theorem quiet_mode_error_output_witness :
    c7run.outputs = c7plan.2.2 ++ error_reports c7stderr c7plan.1 0 := by
  exact quiet_mode_error_output c7porter (fun _ => "/tmp/q.sql") (fun _ => true)
    c7stderr c7plan.1 c7plan.2.1 c7plan.2.2 c7run rfl rfl rfl rfl rfl

end Pickyport
